import Mathlib

/-!
Verification of the reminder-evaluation logic of `src/app.py`
(`daily_reminder_handler` and its helpers).

The Python code is shallowly embedded: strings are Lean `String`s
(processed through their `List Char` data where Python iterates over
characters), the DynamoDB status table is an association list from
ItemID to the optional value of the record's `Status` attribute, dates
are proleptic-Gregorian triples with an ordinal-day conversion matching
`datetime.date.toordinal`, and the two outbound transports are modelled
as emitted notification events.  Exceptions that escape the per-row
logic are modelled by an explicit error constructor that carries the
effects performed before the raise.
-/

set_option autoImplicit false

namespace ReminderBot

/-! ### Python string helpers -/

/-- ASCII decimal digit test (model of the digit class used by
`int` and by `strptime`'s numeric directives). -/
def pyIsDigit (c : Char) : Bool :=
  '0' ≤ c && c ≤ '9'

/-- Whitespace as stripped by Python's `str.strip()` (ASCII fragment:
space, tab, newline, carriage return, vertical tab, form feed). -/
def pyIsSpace (c : Char) : Bool :=
  c = ' ' || c = '\t' || c = '\n' || c = '\r' || c = '\x0b' || c = '\x0c'

/-- Model of Python `str.strip()`: drop leading and trailing whitespace. -/
def pyStrip (s : String) : String :=
  ⟨((s.data.dropWhile pyIsSpace).reverse.dropWhile pyIsSpace).reverse⟩

/-- Model of Python `str.split(sep)` for a one-character separator:
split at every occurrence, keeping empty fields (so the result for the
empty string is `[""]`, as in Python). -/
def pySplitAux (sep : Char) : List Char → List Char → List String
  | [], acc => [⟨acc.reverse⟩]
  | c :: cs, acc =>
    if c = sep then ⟨acc.reverse⟩ :: pySplitAux sep cs []
    else pySplitAux sep cs (c :: acc)

def pySplit (sep : Char) (s : String) : List String :=
  pySplitAux sep s.data []

/-- Model of Python `str.replace(old, new)` for the one-character
pattern `' '` used at `app.py:133`: with a single-character pattern,
`replace` substitutes every occurrence character by character. -/
def pyReplaceChar (pat rep : Char) : List Char → List Char
  | [] => []
  | c :: cs => (if c = pat then rep else c) :: pyReplaceChar pat rep cs

/-- Value of a list of ASCII digits read in base 10. -/
def digitsVal (l : List Char) : Nat :=
  l.foldl (fun a c => a * 10 + (c.toNat - 48)) 0

/-- Digit-string body of Python `int()`: digits optionally separated by
single underscores, where each underscore must sit between two digits.
The boolean argument records whether the previously consumed character
was a digit. -/
def pyIntDigits : List Char → Nat → Bool → Option Nat
  | [], acc, prevDigit => if prevDigit then some acc else none
  | c :: cs, acc, prevDigit =>
    if pyIsDigit c then pyIntDigits cs (acc * 10 + (c.toNat - 48)) true
    else if c = '_' && prevDigit then pyIntDigits cs acc false
    else none

/-- Model of Python `int(s)` on an already-stripped string (ASCII
digits): an optional sign followed by underscore-separated digits;
`none` models the `ValueError` raise. -/
def pyInt (s : String) : Option Int :=
  match s.data with
  | '-' :: rest => (pyIntDigits rest 0 false).map (fun n => -(n : Int))
  | '+' :: rest => (pyIntDigits rest 0 false).map (fun n => (n : Int))
  | l => (pyIntDigits l 0 false).map (fun n => (n : Int))

/-! ### Dates (`datetime.strptime(_, '%m/%d/%Y').date()` and day arithmetic) -/

structure Date where
  year : Nat
  month : Nat
  day : Nat
  deriving DecidableEq, Repr

/-- Gregorian leap-year rule, as in `datetime`. -/
def isLeap (y : Nat) : Bool :=
  y % 4 = 0 && (y % 100 ≠ 0 || y % 400 = 0)

def daysInMonth (y m : Nat) : Nat :=
  if m = 2 then (if isLeap y then 29 else 28)
  else if m = 4 || m = 6 || m = 9 || m = 11 then 30
  else 31

def daysBeforeMonth (y m : Nat) : Nat :=
  (List.range (m - 1)).foldl (fun a i => a + daysInMonth y (i + 1)) 0

/-- `datetime.date.toordinal`: day number of a proleptic-Gregorian date,
with 0001-01-01 as day 1. -/
def toOrdinal (d : Date) : Nat :=
  365 * (d.year - 1) + (d.year - 1) / 4 + (d.year - 1) / 400 - (d.year - 1) / 100
    + daysBeforeMonth d.year d.month + d.day

/-- `%m` of CPython `strptime`: one or two ASCII digits with value 1–12. -/
def validMonthStr (s : String) : Bool :=
  s.data.all pyIsDigit && decide (1 ≤ s.length) && decide (s.length ≤ 2)
    && decide (1 ≤ digitsVal s.data) && decide (digitsVal s.data ≤ 12)

/-- `%d` of CPython `strptime`: one or two ASCII digits with value 1–31
(the month-dependent upper bound is enforced by the `date` constructor
and is checked in `parseDate`). -/
def validDayStr (s : String) : Bool :=
  s.data.all pyIsDigit && decide (1 ≤ s.length) && decide (s.length ≤ 2)
    && decide (1 ≤ digitsVal s.data)

/-- `%Y` of CPython `strptime`: exactly four ASCII digits; the `date`
constructor additionally requires the year to be at least `MINYEAR = 1`. -/
def validYearStr (s : String) : Bool :=
  s.data.all pyIsDigit && decide (s.length = 4) && decide (1 ≤ digitsVal s.data)

/-- Model of `datetime.strptime(s, '%m/%d/%Y').date()` at `app.py:150`:
the whole string must be month, day and year fields separated by two
slashes (any unconverted data is a `ValueError`), and the day must exist
in the given month.  `none` models the `ValueError` raise. -/
def parseDate (s : String) : Option Date :=
  match pySplit '/' s with
  | [ms, ds, ys] =>
    if validMonthStr ms && validDayStr ds && validYearStr ys
        && decide (digitsVal ds.data ≤ daysInMonth (digitsVal ys.data) (digitsVal ms.data))
    then some ⟨digitsVal ys.data, digitsVal ms.data, digitsVal ds.data⟩
    else none
  | _ => none

/-! ### Spreadsheet row access (`header_map` and guarded indexing) -/

/-- The dict comprehension building `header_map` at
`app.py:117`: a Python dict comprehension keeps the LAST index for a
duplicated header, so lookup returns the index of the last occurrence. -/
def headerIdxAux (h : String) : List String → Nat → Option Nat
  | [], _ => none
  | x :: xs, i =>
    match headerIdxAux h xs (i + 1) with
    | some j => some j
    | none => if x = h then some i else none

def headerIdx (headers : List String) (h : String) : Option Nat :=
  headerIdxAux h headers 0

/-- The guarded cell access pattern
`row[header_map.get(h)] if h in header_map and len(row) > header_map.get(h) else dflt`
used at `app.py:124-125,158,166,172-175`. -/
def getCell (headers : List String) (row : List String) (h dflt : String) : String :=
  match headerIdx headers h with
  | some i => row.getD i dflt
  | none => dflt

/-! ### Status store (DynamoDB table keyed by ItemID) -/

/-- The status table: ItemID to the stored record, where a record is
the optional value of its `Status` attribute (a record may in principle
lack the attribute, which `Item.get('Status', 'Active')` defaults). -/
def Store := List (String × Option String)

instance : DecidableEq Store := inferInstanceAs (DecidableEq (List (String × Option String)))

/-- `table.get_item` keyed by ItemID at `app.py:136`: `none` when no
record exists, `some attr` for a stored record. -/
def storeGet (s : Store) (k : String) : Option (Option String) :=
  (s.find? (fun e => e.1 == k)).map (fun e => e.2)

/-- `table.put_item` of an ItemID/Status record at `app.py:146`:
insert or overwrite (modelled by shadowing). -/
def storePut (s : Store) (k : String) (v : String) : Store :=
  (k, some v) :: s

/-- The nested defaulted gets of the Status attribute at `app.py:137`. -/
def pyStatus (response : Option (Option String)) : String :=
  match response with
  | none => "Active"
  | some attr => attr.getD "Active"

/-! ### ItemID derivation (`app.py:133`) -/

/-- The f-string ItemID derivation at `app.py:133`: the item name with
spaces replaced by hyphens, a hyphen, then the raw due-date string. -/
def item_id (name due_date_str : String) : String :=
  String.mk (pyReplaceChar ' ' '-' name.data) ++ "-" ++ due_date_str

/-- A `name.replace` written in the spec's words ("the item name with
each space replaced by a hyphen"), for comparison with `item_id`. -/
def specItemId (name due_date_str : String) : String :=
  String.mk (name.data.map (fun c => if c = ' ' then '-' else c)) ++ "-" ++ due_date_str

/-! ### Advance-days parsing (`app.py:166-167`) -/

/-- The tokens surviving the comprehension filter in
`[int(d.strip()) for d in s.split(',') if d.strip()]`: split on commas,
strip each field, keep the non-empty ones. -/
def advTokens (s : String) : List String :=
  ((pySplit ',' s).map pyStrip).filter (fun t => t ≠ "")

/-- The comprehension body: convert each surviving token with `int`,
left to right; the first malformed token raises (`none`). -/
def pyIntList : List String → Option (List Int)
  | [] => some []
  | tok :: toks =>
    match pyInt tok with
    | none => none
    | some n =>
      match pyIntList toks with
      | none => none
      | some ns => some (n :: ns)

/-- `[int(d.strip()) for d in s.split(',') if d.strip()]`: `none` models
the uncaught `ValueError` raised by `int` on a malformed entry. -/
def parseAdvanceDays (s : String) : Option (List Int) :=
  pyIntList (advTokens s)

/-! ### Notification events and per-row evaluation -/

/-- One outbound notification: the overdue branch (`app.py:157-163`),
the due-soon branch (`app.py:170-184`), or the critical operator alert
of the outer handler (`app.py:194`).  Each row-level event stands for
the Telegram-plus-email pair sent for that row. -/
inductive Event where
  | overdue (itemName dueDateStr : String) (overdueBy : Int) (policyNo : String)
  | dueSoon (itemName dueDateStr : String) (daysUntilDue : Int)
      (policyNo amount nameOnInv placeBranch : String)
  | critical (msg : String)
  deriving DecidableEq, Repr

/-- Outcome of processing one row: `ok` for normal fall-through to the
next row, `err` for an exception escaping the row (it carries the
events and puts already performed and the store as mutated so far). -/
inductive RowResult where
  | ok (events : List Event) (puts : List (String × String)) (store : Store)
  | err (msg : String) (events : List Event) (puts : List (String × String)) (store : Store)
  deriving DecidableEq

def RowResult.events : RowResult → List Event
  | .ok evs _ _ => evs
  | .err _ evs _ _ => evs

def RowResult.puts : RowResult → List (String × String)
  | .ok _ ps _ => ps
  | .err _ _ ps _ => ps

def RowResult.store : RowResult → Store
  | .ok _ _ st => st
  | .err _ _ _ st => st

def RowResult.isOk : RowResult → Bool
  | .ok _ _ _ => true
  | .err _ _ _ _ => false

/-- The body of the per-row loop of `daily_reminder_handler`
(`app.py:120-186`), for one row.  `todayOrd` is the ordinal of
`datetime.now().date()`. -/
def processRow (store : Store) (headers row : List String) (todayOrd : Int) : RowResult :=
  let item_name := getCell headers row "ItemName" ""
  let due_date_str := getCell headers row "DueDate" ""
  if item_name = "" ∨ due_date_str = "" then
    .ok [] [] store
  else
    let itemId := item_id item_name due_date_str
    let response := storeGet store itemId
    let item_status := pyStatus response
    if item_status = "Handled" then
      .ok [] [] store
    else
      let puts := match response with
        | none => [(itemId, "Active")]
        | some _ => []
      let store₁ := match response with
        | none => storePut store itemId "Active"
        | some _ => store
      match parseDate due_date_str with
      | none => .ok [] puts store₁
      | some due_date =>
        let days_until_due : Int := (toOrdinal due_date : Int) - todayOrd
        if days_until_due < 0 then
          let policy_no := getCell headers row "Policy/Inv. No." "N/A"
          .ok [.overdue item_name due_date_str (-days_until_due) policy_no] puts store₁
        else
          let advance_days_str := getCell headers row "AdvanceDays" ""
          match parseAdvanceDays advance_days_str with
          | none => .err "ValueError: invalid literal for int" [] puts store₁
          | some advance_days_list =>
            if days_until_due ∈ advance_days_list then
              let policy_no := getCell headers row "Policy/Inv. No." "N/A"
              let amount := getCell headers row "Amount" "N/A"
              let name_on_inv := getCell headers row "Name on Inv." "N/A"
              let place_branch := getCell headers row "Place/Branch" "N/A"
              .ok [.dueSoon item_name due_date_str days_until_due
                    policy_no amount name_on_inv place_branch] puts store₁
            else
              .ok [] puts store₁

/-- Outcome of the whole loop over the data rows. -/
inductive PassResult where
  | ok (events : List Event) (puts : List (String × String)) (store : Store)
  | err (msg : String) (events : List Event) (puts : List (String × String)) (store : Store)
  deriving DecidableEq

def PassResult.events : PassResult → List Event
  | .ok evs _ _ => evs
  | .err _ evs _ _ => evs

def PassResult.puts : PassResult → List (String × String)
  | .ok _ ps _ => ps
  | .err _ _ ps _ => ps

def PassResult.isOk : PassResult → Bool
  | .ok _ _ _ => true
  | .err _ _ _ _ => false

/-- The loop `for i, row in enumerate(reminders_as_lists)` at
`app.py:120`: rows are processed in order, threading the store; an
exception escaping a row aborts the loop, keeping the effects performed
up to that point. -/
def processRows (store : Store) (headers : List String) (todayOrd : Int) :
    List (List String) → PassResult
  | [] => .ok [] [] store
  | row :: rest =>
    match processRow store headers row todayOrd with
    | .ok evs puts store₁ =>
      match processRows store₁ headers todayOrd rest with
      | .ok evs₂ puts₂ store₂ => .ok (evs ++ evs₂) (puts ++ puts₂) store₂
      | .err m evs₂ puts₂ store₂ => .err m (evs ++ evs₂) (puts ++ puts₂) store₂
    | .err m evs puts store₁ => .err m evs puts store₁

/-! ### The outer handler (`app.py:93-195`) -/

deriving instance DecidableEq for Except

/-- Result of one invocation: the notification events sent (row events
plus, on failure, the final critical alert), the status-store puts, and
either the statusCode-200 success return or the re-raised error. -/
structure HandlerResult where
  events : List Event
  puts : List (String × String)
  result : Except String Nat
  deriving DecidableEq

/-- `daily_reminder_handler`: credential fetch and sheet fetch are the
two external calls that may throw (`app.py:104-109`); `sheet` is
`worksheet.get_all_values()`, whose first element is the header row
(`app.py:111`; an empty sheet makes `all_values[0]` raise).  Any
exception reaching the outer `except` sends one critical Telegram alert
and re-raises (`app.py:191-195`); otherwise the handler returns 200. -/
def daily_reminder_handler (creds : Except String Unit)
    (sheet : Except String (List (List String))) (store : Store)
    (todayOrd : Int) : HandlerResult :=
  match creds with
  | .error e => ⟨[.critical e], [], .error e⟩
  | .ok _ =>
    match sheet with
    | .error e => ⟨[.critical e], [], .error e⟩
    | .ok all_values =>
      match all_values with
      | [] =>
        ⟨[.critical "IndexError: list index out of range"], [],
          .error "IndexError: list index out of range"⟩
      | headers :: rows =>
        match processRows store headers todayOrd rows with
        | .ok evs puts _ => ⟨evs, puts, .ok 200⟩
        | .err m evs puts _ => ⟨evs ++ [.critical m], puts, .error m⟩

/-! ### Concrete fixtures (the spec's scenarios and variations) -/

/-- The header row of the sheet, with all columns present. -/
def demoHeaders : List String :=
  ["ItemName", "DueDate", "AdvanceDays", "Policy/Inv. No.", "Amount",
    "Name on Inv.", "Place/Branch"]

/-- The row of spec scenarios A–D. -/
def carRow : List String :=
  ["Car Insurance", "03/01/2025", "7,3,1", "POL-77", "1200", "N. Kumar", "Downtown"]

/-- The same logical row with a literal hyphen in the name (ItemID collision). -/
def carRowHyphen : List String :=
  ["Car-Insurance", "03/01/2025", "7,3,1", "POL-77", "1200", "N. Kumar", "Downtown"]

/-- A store in which the collided ItemID has already been acknowledged. -/
def handledStore : Store :=
  [("Car-Insurance-03/01/2025", some "Handled")]

/-- A short row whose date is due today relative to `2025-03-05`, with
`0` absent from its advance-days list. -/
def gymRow : List String :=
  ["Gym Membership", "03/05/2025", "7,3,1"]

/-- A row whose due-date string does not parse as MM/DD/YYYY. -/
def badDateRow : List String :=
  ["Rent", "2025-03-01", "7"]

/-- A row whose advance-days column holds a non-integer token. -/
def badAdvRow : List String :=
  ["Power Bill", "03/15/2025", "7,abc"]

/-- A row that fires a DueSoon event on `2025-03-11` (9 days ahead). -/
def goodRow : List String :=
  ["Water Bill", "03/20/2025", "9"]

/-! ### Helper lemmas -/

theorem pyReplaceChar_eq_map (p r : Char) (l : List Char) :
    pyReplaceChar p r l = l.map (fun c => if c = p then r else c) := by
  induction l with
  | nil => rfl
  | cons c cs ih => simp [pyReplaceChar, ih]

theorem pyIntList_eq_none {l : List String} {tok : String}
    (h : tok ∈ l) (hb : pyInt tok = none) : pyIntList l = none := by
  induction l with
  | nil => cases h
  | cons a as ih =>
    cases h with
    | head => simp [pyIntList, hb]
    | tail _ hmem =>
      cases hp : pyInt a <;> simp [pyIntList, hp, ih hmem]

/-- A row that completes normally contributes its events and puts and
threads its store into the rest of the loop. -/
theorem processRows_cons_of_ok {store : Store} {hs row : List String} {t : Int}
    {evs : List Event} {ps : List (String × String)} {st₁ : Store}
    (h : processRow store hs row t = .ok evs ps st₁) (rest : List (List String)) :
    (processRows store hs t (row :: rest)).events
        = evs ++ (processRows st₁ hs t rest).events
      ∧ (processRows store hs t (row :: rest)).isOk
        = (processRows st₁ hs t rest).isOk := by
  simp only [processRows, h]
  cases hr : processRows st₁ hs t rest <;>
    simp [PassResult.events, PassResult.isOk]

/-- A row that raises aborts the loop with the effects performed so far. -/
theorem processRows_cons_of_err {store : Store} {hs row : List String} {t : Int}
    {m : String} {evs : List Event} {ps : List (String × String)} {st₁ : Store}
    (h : processRow store hs row t = .err m evs ps st₁) (rest : List (List String)) :
    processRows store hs t (row :: rest) = .err m evs ps st₁ := by
  simp only [processRows, h]

/-- Per-row processing never emits the operator's critical alert. -/
theorem critical_not_mem_processRow (store : Store) (hs row : List String)
    (t : Int) (e : String) : Event.critical e ∉ (processRow store hs row t).events := by
  unfold processRow
  dsimp only
  split
  · simp [RowResult.events]
  · split
    · simp [RowResult.events]
    · split
      · simp [RowResult.events]
      · split
        · simp [RowResult.events]
        · split
          · simp [RowResult.events]
          · split <;> simp [RowResult.events]

/-- The loop over the rows never emits the operator's critical alert. -/
theorem critical_not_mem_processRows (store : Store) (hs : List String)
    (t : Int) (rows : List (List String)) (e : String) :
    Event.critical e ∉ (processRows store hs t rows).events := by
  induction rows generalizing store with
  | nil => simp [processRows, PassResult.events]
  | cons row rest ih =>
    have hrow := critical_not_mem_processRow store hs row t e
    simp only [processRows]
    cases hr : processRow store hs row t with
    | ok evs ps st₁ =>
      rw [hr] at hrow
      simp only [RowResult.events] at hrow
      dsimp only
      have hrest := ih st₁
      cases hp : processRows st₁ hs t rest with
      | ok evs₂ ps₂ st₂ =>
        rw [hp] at hrest
        simp only [PassResult.events] at hrest
        simp only [PassResult.events, List.mem_append, not_or]
        exact ⟨hrow, hrest⟩
      | err m evs₂ ps₂ st₂ =>
        rw [hp] at hrest
        simp only [PassResult.events] at hrest
        simp only [PassResult.events, List.mem_append, not_or]
        exact ⟨hrow, hrest⟩
    | err m evs ps st₁ =>
      rw [hr] at hrow
      simp only [RowResult.events] at hrow
      dsimp only
      simpa only [PassResult.events] using hrow

/-! ### The claims -/

/-- Claim C1: for every valid row (non-empty item name and due-date
string, status not Handled, parseable due date) with
`days_until_due < 0`, exactly one Overdue notification event is
produced, independent of the contents of the advance-days column (the
column is unconstrained here and never parsed), and the row completes
without raising even when that column is malformed. -/
theorem claim_C1 (store : Store) (headers row : List String) (todayOrd : Int) (due : Date)
    (hname : getCell headers row "ItemName" "" ≠ "")
    (hdds : getCell headers row "DueDate" "" ≠ "")
    (hstatus : pyStatus (storeGet store
      (item_id (getCell headers row "ItemName" "") (getCell headers row "DueDate" ""))) ≠ "Handled")
    (hparse : parseDate (getCell headers row "DueDate" "") = some due)
    (hoverdue : (toOrdinal due : Int) - todayOrd < 0) :
    (processRow store headers row todayOrd).events
        = [Event.overdue (getCell headers row "ItemName" "")
            (getCell headers row "DueDate" "")
            (-((toOrdinal due : Int) - todayOrd))
            (getCell headers row "Policy/Inv. No." "N/A")]
      ∧ (processRow store headers row todayOrd).isOk = true := by
  have hval : ¬(getCell headers row "ItemName" "" = "" ∨ getCell headers row "DueDate" "" = "") :=
    not_or.mpr ⟨hname, hdds⟩
  simp only [processRow]
  rw [if_neg hval, if_neg hstatus, hparse]
  dsimp only
  rw [if_pos hoverdue]
  exact ⟨rfl, rfl⟩

/-- Witness for C1 at spec scenario B: the car-insurance row, four days
past due, with a malformed-free advance list that is never consulted. -/
theorem claim_C1_witness :
    (getCell demoHeaders carRow "ItemName" "" ≠ ""
      ∧ getCell demoHeaders carRow "DueDate" "" ≠ ""
      ∧ pyStatus (storeGet []
          (item_id (getCell demoHeaders carRow "ItemName" "")
            (getCell demoHeaders carRow "DueDate" ""))) ≠ "Handled"
      ∧ parseDate (getCell demoHeaders carRow "DueDate" "") = some ⟨2025, 3, 1⟩
      ∧ (toOrdinal ⟨2025, 3, 1⟩ : Int) - (toOrdinal ⟨2025, 3, 5⟩ : Int) < 0)
    ∧ (processRow [] demoHeaders carRow (toOrdinal ⟨2025, 3, 5⟩)).events
        = [Event.overdue (getCell demoHeaders carRow "ItemName" "")
            (getCell demoHeaders carRow "DueDate" "")
            (-((toOrdinal ⟨2025, 3, 1⟩ : Int) - (toOrdinal ⟨2025, 3, 5⟩ : Int)))
            (getCell demoHeaders carRow "Policy/Inv. No." "N/A")]
      ∧ (processRow [] demoHeaders carRow (toOrdinal ⟨2025, 3, 5⟩)).isOk = true :=
  ⟨⟨by decide, by decide, by decide, by decide, by decide⟩,
    claim_C1 [] demoHeaders carRow (toOrdinal ⟨2025, 3, 5⟩) ⟨2025, 3, 1⟩
      (by decide) (by decide) (by decide) (by decide) (by decide)⟩

/-- Claim C2: for every valid row with `days_until_due >= 0` whose
advance-days column parses, a DueSoon event is produced iff
`days_until_due` is a member of the parsed list; the emitted events are
exactly the singleton DueSoon event on membership and empty otherwise. -/
theorem claim_C2 (store : Store) (headers row : List String) (todayOrd : Int)
    (due : Date) (lst : List Int)
    (hname : getCell headers row "ItemName" "" ≠ "")
    (hdds : getCell headers row "DueDate" "" ≠ "")
    (hstatus : pyStatus (storeGet store
      (item_id (getCell headers row "ItemName" "") (getCell headers row "DueDate" ""))) ≠ "Handled")
    (hparse : parseDate (getCell headers row "DueDate" "") = some due)
    (hge : 0 ≤ (toOrdinal due : Int) - todayOrd)
    (hadv : parseAdvanceDays (getCell headers row "AdvanceDays" "") = some lst) :
    ((processRow store headers row todayOrd).events ≠ []
        ↔ ((toOrdinal due : Int) - todayOrd) ∈ lst)
      ∧ (processRow store headers row todayOrd).events
          = (if ((toOrdinal due : Int) - todayOrd) ∈ lst then
              [Event.dueSoon (getCell headers row "ItemName" "")
                (getCell headers row "DueDate" "")
                ((toOrdinal due : Int) - todayOrd)
                (getCell headers row "Policy/Inv. No." "N/A")
                (getCell headers row "Amount" "N/A")
                (getCell headers row "Name on Inv." "N/A")
                (getCell headers row "Place/Branch" "N/A")]
            else [])
      ∧ (processRow store headers row todayOrd).isOk = true := by
  have hval : ¬(getCell headers row "ItemName" "" = "" ∨ getCell headers row "DueDate" "" = "") :=
    not_or.mpr ⟨hname, hdds⟩
  have hnlt : ¬((toOrdinal due : Int) - todayOrd < 0) := not_lt.mpr hge
  simp only [processRow]
  rw [if_neg hval, if_neg hstatus, hparse]
  dsimp only
  rw [if_neg hnlt, hadv]
  dsimp only
  by_cases hmem : ((toOrdinal due : Int) - todayOrd) ∈ lst
  · simp only [if_pos hmem]
    simp [RowResult.events, RowResult.isOk, hmem]
  · simp only [if_neg hmem]
    simp [RowResult.events, RowResult.isOk, hmem]

/-- Witness for C2: a row due exactly today (`days_until_due = 0`) with
`0` not in its advance-days list produces no notification. -/
theorem claim_C2_witness :
    (getCell demoHeaders gymRow "ItemName" "" ≠ ""
      ∧ getCell demoHeaders gymRow "DueDate" "" ≠ ""
      ∧ pyStatus (storeGet []
          (item_id (getCell demoHeaders gymRow "ItemName" "")
            (getCell demoHeaders gymRow "DueDate" ""))) ≠ "Handled"
      ∧ parseDate (getCell demoHeaders gymRow "DueDate" "") = some ⟨2025, 3, 5⟩
      ∧ 0 ≤ (toOrdinal ⟨2025, 3, 5⟩ : Int) - (toOrdinal ⟨2025, 3, 5⟩ : Int)
      ∧ parseAdvanceDays (getCell demoHeaders gymRow "AdvanceDays" "") = some [7, 3, 1]
      ∧ ((toOrdinal ⟨2025, 3, 5⟩ : Int) - (toOrdinal ⟨2025, 3, 5⟩ : Int)) ∉ ([7, 3, 1] : List Int))
    ∧ (((processRow [] demoHeaders gymRow (toOrdinal ⟨2025, 3, 5⟩)).events ≠ []
        ↔ ((toOrdinal ⟨2025, 3, 5⟩ : Int) - (toOrdinal ⟨2025, 3, 5⟩ : Int)) ∈ ([7, 3, 1] : List Int))
      ∧ (processRow [] demoHeaders gymRow (toOrdinal ⟨2025, 3, 5⟩)).events
          = (if ((toOrdinal ⟨2025, 3, 5⟩ : Int) - (toOrdinal ⟨2025, 3, 5⟩ : Int)) ∈ ([7, 3, 1] : List Int) then
              [Event.dueSoon (getCell demoHeaders gymRow "ItemName" "")
                (getCell demoHeaders gymRow "DueDate" "")
                ((toOrdinal ⟨2025, 3, 5⟩ : Int) - (toOrdinal ⟨2025, 3, 5⟩ : Int))
                (getCell demoHeaders gymRow "Policy/Inv. No." "N/A")
                (getCell demoHeaders gymRow "Amount" "N/A")
                (getCell demoHeaders gymRow "Name on Inv." "N/A")
                (getCell demoHeaders gymRow "Place/Branch" "N/A")]
            else [])
      ∧ (processRow [] demoHeaders gymRow (toOrdinal ⟨2025, 3, 5⟩)).isOk = true) :=
  ⟨⟨by decide, by decide, by decide, by decide, by decide, by decide, by decide⟩,
    claim_C2 [] demoHeaders gymRow (toOrdinal ⟨2025, 3, 5⟩) ⟨2025, 3, 5⟩ [7, 3, 1]
      (by decide) (by decide) (by decide) (by decide) (by decide) (by decide)⟩

/-- Claim C3: a row whose ItemID is mapped to status Handled produces
no notification event regardless of due-date math, issues no put, and
leaves the store untouched. -/
theorem claim_C3 (store : Store) (headers row : List String) (todayOrd : Int)
    (hstatus : pyStatus (storeGet store
      (item_id (getCell headers row "ItemName" "")
        (getCell headers row "DueDate" ""))) = "Handled") :
    processRow store headers row todayOrd = .ok [] [] store := by
  by_cases hval : getCell headers row "ItemName" "" = "" ∨ getCell headers row "DueDate" "" = ""
  · simp only [processRow]
    rw [if_pos hval]
  · simp only [processRow]
    rw [if_neg hval, if_pos hstatus]

/-- Witness for C3 at spec scenario D: the acknowledged car-insurance
row produces no event and no put even on a date where it would
otherwise fire. -/
theorem claim_C3_witness :
    pyStatus (storeGet handledStore
        (item_id (getCell demoHeaders carRow "ItemName" "")
          (getCell demoHeaders carRow "DueDate" ""))) = "Handled"
      ∧ processRow handledStore demoHeaders carRow (toOrdinal ⟨2025, 2, 22⟩)
          = .ok [] [] handledStore :=
  ⟨by decide,
    claim_C3 handledStore demoHeaders carRow (toOrdinal ⟨2025, 2, 22⟩) (by decide)⟩

/-- Claim C5: a valid row whose ItemID has no record in the store
results in exactly one put of an Active record for that ItemID,
regardless of whether a notification fires — in particular also when
the due-date string fails to parse or the advance-days parse raises. -/
theorem claim_C5 (store : Store) (headers row : List String) (todayOrd : Int)
    (hname : getCell headers row "ItemName" "" ≠ "")
    (hdds : getCell headers row "DueDate" "" ≠ "")
    (hnew : storeGet store
      (item_id (getCell headers row "ItemName" "")
        (getCell headers row "DueDate" "")) = none) :
    (processRow store headers row todayOrd).puts
      = [(item_id (getCell headers row "ItemName" "")
          (getCell headers row "DueDate" ""), "Active")] := by
  have hval : ¬(getCell headers row "ItemName" "" = "" ∨ getCell headers row "DueDate" "" = "") :=
    not_or.mpr ⟨hname, hdds⟩
  have hstatus : ¬ pyStatus (storeGet store
      (item_id (getCell headers row "ItemName" "")
        (getCell headers row "DueDate" ""))) = "Handled" := by
    rw [hnew]; simp [pyStatus]
  simp only [processRow]
  rw [if_neg hval, if_neg hstatus, hnew]
  dsimp only
  cases hp : parseDate (getCell headers row "DueDate" "") with
  | none => rfl
  | some due =>
    dsimp only
    split
    · rfl
    · split
      · rfl
      · split
        · rfl
        · rfl

/-- Witness for C5: a never-seen row whose due date does not even parse
still registers its ItemID as Active. -/
theorem claim_C5_witness :
    (getCell demoHeaders badDateRow "ItemName" "" ≠ ""
      ∧ getCell demoHeaders badDateRow "DueDate" "" ≠ ""
      ∧ storeGet []
          (item_id (getCell demoHeaders badDateRow "ItemName" "")
            (getCell demoHeaders badDateRow "DueDate" "")) = none)
    ∧ (processRow [] demoHeaders badDateRow (toOrdinal ⟨2025, 3, 5⟩)).puts
        = [(item_id (getCell demoHeaders badDateRow "ItemName" "")
            (getCell demoHeaders badDateRow "DueDate" ""), "Active")] :=
  ⟨⟨by decide, by decide, by decide⟩,
    claim_C5 [] demoHeaders badDateRow (toOrdinal ⟨2025, 3, 5⟩)
      (by decide) (by decide) (by decide)⟩

/-- Claim C6: a valid, unhandled row whose non-empty due-date string
does not parse completes without raising, produces no event, and the
loop continues with the remaining rows (their events are unaffected). -/
theorem claim_C6 (store : Store) (headers row : List String) (todayOrd : Int)
    (hname : getCell headers row "ItemName" "" ≠ "")
    (hdds : getCell headers row "DueDate" "" ≠ "")
    (hstatus : pyStatus (storeGet store
      (item_id (getCell headers row "ItemName" "")
        (getCell headers row "DueDate" ""))) ≠ "Handled")
    (hparse : parseDate (getCell headers row "DueDate" "") = none) :
    (processRow store headers row todayOrd).events = []
      ∧ (processRow store headers row todayOrd).isOk = true
      ∧ ∀ rest, (processRows store headers todayOrd (row :: rest)).events
          = (processRows ((processRow store headers row todayOrd).store) headers todayOrd rest).events
        ∧ (processRows store headers todayOrd (row :: rest)).isOk
          = (processRows ((processRow store headers row todayOrd).store) headers todayOrd rest).isOk := by
  have hval : ¬(getCell headers row "ItemName" "" = "" ∨ getCell headers row "DueDate" "" = "") :=
    not_or.mpr ⟨hname, hdds⟩
  have hrow : ∃ ps st₁, processRow store headers row todayOrd = .ok [] ps st₁ := by
    simp only [processRow]
    rw [if_neg hval, if_neg hstatus, hparse]
    exact ⟨_, _, rfl⟩
  obtain ⟨ps, st₁, hrow⟩ := hrow
  refine ⟨by rw [hrow]; rfl, by rw [hrow]; rfl, fun rest => ?_⟩
  have h := processRows_cons_of_ok hrow rest
  rw [hrow]
  simp only [RowResult.store]
  exact ⟨by rw [h.1]; rfl, h.2⟩

/-- Witness for C6: the unparseable-date row is skipped and the
water-bill row after it still fires. -/
theorem claim_C6_witness :
    (getCell demoHeaders badDateRow "ItemName" "" ≠ ""
      ∧ getCell demoHeaders badDateRow "DueDate" "" ≠ ""
      ∧ pyStatus (storeGet []
          (item_id (getCell demoHeaders badDateRow "ItemName" "")
            (getCell demoHeaders badDateRow "DueDate" ""))) ≠ "Handled"
      ∧ parseDate (getCell demoHeaders badDateRow "DueDate" "") = none)
    ∧ (processRow [] demoHeaders badDateRow (toOrdinal ⟨2025, 3, 11⟩)).events = []
    ∧ (processRow [] demoHeaders badDateRow (toOrdinal ⟨2025, 3, 11⟩)).isOk = true
    ∧ (processRows [] demoHeaders (toOrdinal ⟨2025, 3, 11⟩) [badDateRow, goodRow]).events
        = (processRows ((processRow [] demoHeaders badDateRow (toOrdinal ⟨2025, 3, 11⟩)).store)
            demoHeaders (toOrdinal ⟨2025, 3, 11⟩) [goodRow]).events
    ∧ (processRows [] demoHeaders (toOrdinal ⟨2025, 3, 11⟩) [badDateRow, goodRow]).isOk
        = (processRows ((processRow [] demoHeaders badDateRow (toOrdinal ⟨2025, 3, 11⟩)).store)
            demoHeaders (toOrdinal ⟨2025, 3, 11⟩) [goodRow]).isOk := by
  have h := claim_C6 [] demoHeaders badDateRow (toOrdinal ⟨2025, 3, 11⟩)
    (by decide) (by decide) (by decide) (by decide)
  exact ⟨⟨by decide, by decide, by decide, by decide⟩,
    h.1, h.2.1, (h.2.2 [goodRow]).1, (h.2.2 [goodRow]).2⟩

/-- Claim C7: a row whose extracted item name or due-date string is
empty (including a missing header column or a short row, which degrade
to the empty string) is skipped with no event and no store mutation. -/
theorem claim_C7 (store : Store) (headers row : List String) (todayOrd : Int)
    (hempty : getCell headers row "ItemName" "" = ""
      ∨ getCell headers row "DueDate" "" = "") :
    processRow store headers row todayOrd = .ok [] [] store := by
  simp only [processRow]
  rw [if_pos hempty]

/-- Witness for C7 at spec scenario E: the DueDate column is missing
entirely from the headers, so the row degrades to an empty due-date
string and is skipped without touching the store. -/
theorem claim_C7_witness :
    (getCell ["ItemName", "AdvanceDays"] ["Car Insurance", "7,3,1"] "ItemName" "" = ""
      ∨ getCell ["ItemName", "AdvanceDays"] ["Car Insurance", "7,3,1"] "DueDate" "" = "")
    ∧ processRow [] ["ItemName", "AdvanceDays"] ["Car Insurance", "7,3,1"]
        (toOrdinal ⟨2025, 2, 22⟩) = .ok [] [] [] :=
  ⟨by decide,
    claim_C7 [] ["ItemName", "AdvanceDays"] ["Car Insurance", "7,3,1"]
      (toOrdinal ⟨2025, 2, 22⟩) (by decide)⟩

/-- Counterexample to C4 as stated: the advance-days entry `abc` does
not degrade gracefully — the conversion raises (the row result is an
error) and the pass over the remaining rows IS aborted: processed
alone, the water-bill row fires an event, but behind the malformed row
no event at all is produced. -/
theorem claim_C4_counterexample :
    parseAdvanceDays "7,abc" = none
      ∧ (processRow [] demoHeaders badAdvRow (toOrdinal ⟨2025, 3, 11⟩)).isOk = false
      ∧ (processRows [] demoHeaders (toOrdinal ⟨2025, 3, 11⟩) [badAdvRow, goodRow]).isOk = false
      ∧ (processRows [] demoHeaders (toOrdinal ⟨2025, 3, 11⟩) [badAdvRow, goodRow]).events = []
      ∧ (processRows [] demoHeaders (toOrdinal ⟨2025, 3, 11⟩) [goodRow]).events ≠ [] := by
  decide

/-- Claim C4 as amended: only empty or whitespace-only entries of the
advance-days column contribute nothing; a malformed (non-integer)
non-empty entry of a row that reaches advance-day matching makes the
integer conversion raise an uncaught error — the row emits no event and
the pass is aborted, leaving the effects performed so far (the
remaining rows contribute no events and no puts). -/
theorem claim_C4 (store : Store) (headers row : List String) (todayOrd : Int)
    (due : Date) (tok : String)
    (hname : getCell headers row "ItemName" "" ≠ "")
    (hdds : getCell headers row "DueDate" "" ≠ "")
    (hstatus : pyStatus (storeGet store
      (item_id (getCell headers row "ItemName" "")
        (getCell headers row "DueDate" ""))) ≠ "Handled")
    (hparse : parseDate (getCell headers row "DueDate" "") = some due)
    (hge : 0 ≤ (toOrdinal due : Int) - todayOrd)
    (htok : tok ∈ advTokens (getCell headers row "AdvanceDays" ""))
    (hbad : pyInt tok = none) :
    (processRow store headers row todayOrd).isOk = false
      ∧ (processRow store headers row todayOrd).events = []
      ∧ ∀ rest, (processRows store headers todayOrd (row :: rest)).isOk = false
          ∧ (processRows store headers todayOrd (row :: rest)).events = []
          ∧ (processRows store headers todayOrd (row :: rest)).puts
              = (processRow store headers row todayOrd).puts := by
  have hadv : parseAdvanceDays (getCell headers row "AdvanceDays" "") = none := by
    unfold parseAdvanceDays
    exact pyIntList_eq_none htok hbad
  have hval : ¬(getCell headers row "ItemName" "" = "" ∨ getCell headers row "DueDate" "" = "") :=
    not_or.mpr ⟨hname, hdds⟩
  have hnlt : ¬((toOrdinal due : Int) - todayOrd < 0) := not_lt.mpr hge
  have hrow : ∃ ps st₁, processRow store headers row todayOrd
      = .err "ValueError: invalid literal for int" [] ps st₁ := by
    simp only [processRow]
    rw [if_neg hval, if_neg hstatus, hparse]
    dsimp only
    rw [if_neg hnlt, hadv]
    exact ⟨_, _, rfl⟩
  obtain ⟨ps, st₁, hrow⟩ := hrow
  refine ⟨by rw [hrow]; rfl, by rw [hrow]; rfl, fun rest => ?_⟩
  have h := processRows_cons_of_err hrow rest
  rw [h, hrow]
  exact ⟨rfl, rfl, rfl⟩

/-- Witness for the amended C4: the power-bill row with entry `abc`
aborts the pass; the water-bill row behind it is never processed. -/
theorem claim_C4_witness :
    (getCell demoHeaders badAdvRow "ItemName" "" ≠ ""
      ∧ getCell demoHeaders badAdvRow "DueDate" "" ≠ ""
      ∧ pyStatus (storeGet []
          (item_id (getCell demoHeaders badAdvRow "ItemName" "")
            (getCell demoHeaders badAdvRow "DueDate" ""))) ≠ "Handled"
      ∧ parseDate (getCell demoHeaders badAdvRow "DueDate" "") = some ⟨2025, 3, 15⟩
      ∧ 0 ≤ (toOrdinal ⟨2025, 3, 15⟩ : Int) - (toOrdinal ⟨2025, 3, 11⟩ : Int)
      ∧ "abc" ∈ advTokens (getCell demoHeaders badAdvRow "AdvanceDays" "")
      ∧ pyInt "abc" = none)
    ∧ (processRow [] demoHeaders badAdvRow (toOrdinal ⟨2025, 3, 11⟩)).isOk = false
    ∧ (processRow [] demoHeaders badAdvRow (toOrdinal ⟨2025, 3, 11⟩)).events = []
    ∧ (processRows [] demoHeaders (toOrdinal ⟨2025, 3, 11⟩) [badAdvRow, goodRow]).isOk = false
    ∧ (processRows [] demoHeaders (toOrdinal ⟨2025, 3, 11⟩) [badAdvRow, goodRow]).events = []
    ∧ (processRows [] demoHeaders (toOrdinal ⟨2025, 3, 11⟩) [badAdvRow, goodRow]).puts
        = (processRow [] demoHeaders badAdvRow (toOrdinal ⟨2025, 3, 11⟩)).puts := by
  have h := claim_C4 [] demoHeaders badAdvRow (toOrdinal ⟨2025, 3, 11⟩) ⟨2025, 3, 15⟩ "abc"
    (by decide) (by decide) (by decide) (by decide) (by decide) (by decide) (by decide)
  exact ⟨⟨by decide, by decide, by decide, by decide, by decide, by decide, by decide⟩,
    h.1, h.2.1, (h.2.2 [goodRow]).1, (h.2.2 [goodRow]).2.1, (h.2.2 [goodRow]).2.2⟩

/-- Claim C8: on normal completion the handler returns status 200 and
never emits the critical operator alert; on any unrecovered error
(credential fetch, sheet fetch, empty sheet, or a raise escaping a row)
the handler's last emitted event is the best-effort critical chat alert
for that error, and the error is re-signalled to the caller. -/
theorem claim_C8 (creds : Except String Unit)
    (sheet : Except String (List (List String))) (store : Store) (todayOrd : Int) :
    ((daily_reminder_handler creds sheet store todayOrd).result = .ok 200
      ∧ ∀ e, Event.critical e ∉ (daily_reminder_handler creds sheet store todayOrd).events)
    ∨ ∃ e, (daily_reminder_handler creds sheet store todayOrd).result = .error e
        ∧ (daily_reminder_handler creds sheet store todayOrd).events.getLast?
            = some (.critical e) := by
  cases creds with
  | error e => exact Or.inr ⟨e, rfl, by simp [daily_reminder_handler]⟩
  | ok u =>
    cases sheet with
    | error e => exact Or.inr ⟨e, rfl, by simp [daily_reminder_handler]⟩
    | ok all_values =>
      cases all_values with
      | nil =>
        exact Or.inr ⟨"IndexError: list index out of range", rfl,
          by simp [daily_reminder_handler]⟩
      | cons hs rows =>
        simp only [daily_reminder_handler]
        cases hp : processRows store hs todayOrd rows with
        | ok evs ps st =>
          refine Or.inl ⟨rfl, fun e => ?_⟩
          have hm := critical_not_mem_processRows store hs todayOrd rows e
          rw [hp] at hm
          simpa only [PassResult.events] using hm
        | err m evs ps st =>
          refine Or.inr ⟨m, rfl, ?_⟩
          show (evs ++ [Event.critical m]).getLast? = some (Event.critical m)
          simp

/-- Claim C9: ItemID derivation is a pure deterministic function of the
(item name, raw due-date string) pair, equal to the name with each
space replaced by a hyphen, then a hyphen, then the raw date string. -/
theorem claim_C9 (name due_date_str : String) :
    item_id name due_date_str = specItemId name due_date_str
      ∧ ∀ n₂ d₂, n₂ = name → d₂ = due_date_str →
          item_id n₂ d₂ = item_id name due_date_str := by
  refine ⟨?_, fun n₂ d₂ hn hd => by rw [hn, hd]⟩
  unfold item_id specItemId
  rw [pyReplaceChar_eq_map]

/-- Witness for C9 on a concrete pair. -/
theorem claim_C9_witness :
    item_id "Car Insurance" "03/01/2025" = specItemId "Car Insurance" "03/01/2025"
      ∧ item_id "Car Insurance" "03/01/2025" = item_id "Car Insurance" "03/01/2025" :=
  ⟨(claim_C9 "Car Insurance" "03/01/2025").1,
    (claim_C9 "Car Insurance" "03/01/2025").2 "Car Insurance" "03/01/2025" rfl rfl⟩

/-- Claim C10: ItemID derivation is not injective — the distinct names
"Car Insurance" and "Car-Insurance" with the same date string collide,
so both rows are suppressed by the single Handled record, with no event
and no put for either. -/
theorem claim_C10 :
    "Car Insurance" ≠ "Car-Insurance"
      ∧ item_id "Car Insurance" "03/01/2025" = item_id "Car-Insurance" "03/01/2025"
      ∧ processRow handledStore demoHeaders carRow (toOrdinal ⟨2025, 2, 22⟩)
          = .ok [] [] handledStore
      ∧ processRow handledStore demoHeaders carRowHyphen (toOrdinal ⟨2025, 2, 22⟩)
          = .ok [] [] handledStore := by
  refine ⟨by decide, by decide, ?_, ?_⟩ <;> decide

end ReminderBot
